import Mathlib

/-!
Verification development for `scripts/d4xx_to_mavlink.py`.

The script bridges an Intel RealSense D4xx depth camera and a MAVLink
flight controller: it reduces each depth frame to a 72-element array of
obstacle distances in centimeters (`distances_from_depth_image`, lines
359-369 of the source) and periodically publishes that array to the
vehicle (`send_obstacle_distance_message`, lines 185-200), driven by a
background scheduler configured at lines 392-405.

The embedding below models the numeric Python code over `ℚ` (the script
uses IEEE doubles; we use exact rational arithmetic as the idealized
real-valued semantics) and models a depth frame as a list of rows of raw
`Nat` depth samples.  Out-of-bounds pixel accesses, which would raise at
runtime, are modelled by `Option`.
-/

/- Batteries marks the rational operations irreducible; re-enable
unfolding locally so that concrete rational computations evaluate. -/
attribute [local semireducible] Rat.mul Rat.inv Rat.add Rat.sub

/-- Source line 52: `HFOV = 87`, the horizontal field of view in degrees. -/
def HFOV : ℚ := 87

/-- Source line 53: `DEPTH_RANGE = [0.1, 8.0]`, first element (meters). -/
def DEPTH_RANGE_MIN : ℚ := 1 / 10

/-- Source line 53: `DEPTH_RANGE = [0.1, 8.0]`, second element (meters). -/
def DEPTH_RANGE_MAX : ℚ := 8

/-- Source line 57: `MIN_DEPTH_CM = int(DEPTH_RANGE[0] * 100)`.  Python's
`int` truncates toward zero, which is the floor for nonnegative values. -/
def MIN_DEPTH_CM : Nat := (⌊DEPTH_RANGE_MIN * 100⌋).toNat

/-- Source line 58: `MAX_DEPTH_CM = int(DEPTH_RANGE[1] * 100)`. -/
def MAX_DEPTH_CM : Nat := (⌊DEPTH_RANGE_MAX * 100⌋).toNat

/-- Source line 59: `DISTANCES_ARRAY_LEN = 72`. -/
def DISTANCES_ARRAY_LEN : Nat := 72

/-- Source line 60: `ANGLE_OFFSET = -(HFOV / 2)`. -/
def ANGLE_OFFSET : ℚ := -(HFOV / 2)

/-- Source line 61: `INCREMENT_F = HFOV / DISTANCES_ARRAY_LEN`. -/
def INCREMENT_F : ℚ := HFOV / (DISTANCES_ARRAY_LEN : ℚ)

/-- Source line 62: `distances = np.ones((72,), dtype=np.uint16) * (MAX_DEPTH_CM + 1)`,
the initial contents of the shared distance array: every sector holds the
out-of-range sentinel. -/
def distances_init : List Nat := List.replicate DISTANCES_ARRAY_LEN (MAX_DEPTH_CM + 1)

/-- A depth frame (`depth_mat` in the source): a list of rows, each row a
list of raw depth samples.  `depth_mat.shape[0]` is the number of rows. -/
def matHeight (mat : List (List Nat)) : Nat := mat.length

/-- `depth_mat.shape[1]`: the number of columns, read off the first row
(numpy arrays are rectangular; `Wellformed` states that). -/
def matWidth (mat : List (List Nat)) : Nat := (mat.head?.getD []).length

/-- Rectangularity of a frame: every row has `matWidth` columns, as numpy
guarantees for a 2-D array. -/
def Wellformed (mat : List (List Nat)) : Prop := ∀ row ∈ mat, row.length = matWidth mat

instance instWellformedDecidable (mat : List (List Nat)) : Decidable (Wellformed mat) :=
  List.decidableBAll _ mat

/-- `depth_mat[r, c]`: pixel access, `none` when an index is out of bounds
(numpy raises `IndexError` there). -/
def matGet (mat : List (List Nat)) (r c : Nat) : Option Nat :=
  (mat[r]?).bind fun row => row[c]?

/-- Source line 365, row selection `int(depth_img_height/2)`: Python 3 `/`
is real division and `int` truncates, i.e. the floor for nonnegative
arguments. -/
def rowIndex (h : Nat) : Nat := (⌊(h : ℚ) / 2⌋).toNat

/-- Source lines 363 and 365, column selection `int(i * step)` with
`step = depth_img_width / DISTANCES_ARRAY_LEN` a real-valued quotient. -/
def colIndex (w i : Nat) : Nat :=
  (⌊(i : ℚ) * ((w : ℚ) / (DISTANCES_ARRAY_LEN : ℚ))⌋).toNat

/-- Source lines 365-369, the per-sector computation:
`dist_m = depth_mat[...] * depth_scale`; if `dist_m < min_depth_m or
dist_m > max_depth_m` the stored value is `max_depth_m * 100 + 1`, else
`dist_m * 100`.  Storing a float into a `uint16` numpy cell truncates, so
both branches take the floor (all stored values here are nonnegative and
below 2^16, so no wrap-around occurs). -/
def sectorValue (raw : Nat) (scale min_depth_m max_depth_m : ℚ) : Nat :=
  let dist_m : ℚ := (raw : ℚ) * scale
  if dist_m < min_depth_m ∨ dist_m > max_depth_m then
    (⌊max_depth_m * 100 + 1⌋).toNat
  else
    (⌊dist_m * 100⌋).toNat

/-- The single pixel read by loop iteration `i` of
`distances_from_depth_image`: row `int(height/2)`, column `int(i * step)`. -/
def sampleAt (mat : List (List Nat)) (i : Nat) : Option Nat :=
  matGet mat (rowIndex (matHeight mat)) (colIndex (matWidth mat) i)

/-- One loop iteration of `distances_from_depth_image` (source lines
364-369): sample the pixel for sector `i` and overwrite `distances[i]`. -/
def extractStep (depth_mat : List (List Nat)) (min_depth_m max_depth_m scale : ℚ)
    (acc : List Nat) (i : Nat) : Option (List Nat) :=
  (sampleAt depth_mat i).map fun raw => acc.set i (sectorValue raw scale min_depth_m max_depth_m)

/-- Source lines 359-369, `distances_from_depth_image(depth_mat, distances,
min_depth_m, max_depth_m)`.  The Python function mutates the `distances`
array in place; here the prior array is the `dists` argument and the
updated array is returned.  The global `depth_scale` read inside the loop
is passed as the `scale` parameter.  A frame too small to supply a sampled
pixel yields `none` (runtime index error). -/
def distances_from_depth_image (depth_mat : List (List Nat)) (dists : List Nat)
    (min_depth_m max_depth_m scale : ℚ) : Option (List Nat) :=
  (List.range DISTANCES_ARRAY_LEN).foldlM (extractStep depth_mat min_depth_m max_depth_m scale) dists

/-- The first `k` loop iterations of `distances_from_depth_image`: the
intermediate states of the shared `distances` array that exist while the
in-place, element-by-element overwrite is underway. -/
def distances_from_depth_image_steps (depth_mat : List (List Nat)) (dists : List Nat)
    (min_depth_m max_depth_m scale : ℚ) (k : Nat) : Option (List Nat) :=
  ((List.range DISTANCES_ARRAY_LEN).take k).foldlM
    (extractStep depth_mat min_depth_m max_depth_m scale) dists

/-- The payload of one OBSTACLE_DISTANCE MAVLink message as built by
`send_obstacle_distance_message` (source lines 185-197). -/
structure ObstacleDistanceMsg where
  time_usec : Nat
  sensor_type : Nat
  dists : List Nat
  increment : Nat
  min_distance : Nat
  max_distance : Nat
  increment_f : ℚ
  angle_offset : ℚ
  frame : Nat

/-- The process state visible to the telemetry job: the shared `distances`
array and `current_time_us` global, plus the list of messages handed to
the vehicle link so far. -/
structure TelemetryState where
  distances : List Nat
  current_time_us : Nat
  sent : List ObstacleDistanceMsg

/-- The state before any depth frame has been processed: `distances` still
holds its line-62 initial value and nothing has been sent. -/
def initTelemetryState : TelemetryState :=
  { distances := distances_init, current_time_us := 0, sent := [] }

/-- Source lines 185-200: one scheduler tick of the obstacle-distance job.
It unconditionally encodes the current `distances` array (there is no
readiness check) and hands exactly one message to the vehicle link. -/
def send_obstacle_distance_message (s : TelemetryState) : TelemetryState :=
  let msg : ObstacleDistanceMsg :=
    { time_usec := s.current_time_us
      sensor_type := 0
      dists := s.distances
      increment := 0
      min_distance := MIN_DEPTH_CM
      max_distance := MAX_DEPTH_CM
      increment_f := INCREMENT_F
      angle_offset := ANGLE_OFFSET
      frame := 12 }
  { s with sent := s.sent ++ [msg] }

/-- The two periodic publication jobs that may be registered with the
background scheduler (source lines 394-399). -/
inductive JobKind where
  | obstacleDistance : JobKind
  | distanceSensor : JobKind
deriving DecidableEq

/-- Observable outcome of the scheduler set-up block (source lines
392-405): whether `sched.start()` ran, which jobs were added, the status
texts sent to the ground station, and the process exit code if the block
exits (`sys.exit()` with no argument exits with status 0). -/
structure SchedOutcome where
  schedStarted : Bool
  jobs : List JobKind
  gcs : List String
  exitCode : Option Nat
deriving DecidableEq

/-- Source lines 392-405.  `sched.start()` is executed unconditionally at
line 392, before the enable-flag branch.  If `enable_msg_obstacle_distance`
the obstacle-distance job is added; elif `enable_msg_distance_sensor` the
distance-sensor job is added; else a status text is sent and the process
exits via `sys.exit()`, i.e. with exit status 0. -/
def sched_setup (enable_msg_obstacle_distance enable_msg_distance_sensor : Bool) : SchedOutcome :=
  if enable_msg_obstacle_distance then
    { schedStarted := true
      jobs := [JobKind.obstacleDistance]
      gcs := ["Sending obstacle distance messages to FCU"]
      exitCode := none }
  else if enable_msg_distance_sensor then
    { schedStarted := true
      jobs := [JobKind.distanceSensor]
      gcs := ["Sending distance sensor messages to FCU"]
      exitCode := none }
  else
    { schedStarted := true
      jobs := []
      gcs := ["Nothing to do. Check params to enable something"]
      exitCode := some 0 }

/-- When every loop iteration's pixel sample succeeds with value `v i`,
the monadic fold of `extractStep` succeeds and equals the pure fold of
in-place `set` operations. -/
theorem foldlM_extractStep_eq_some (mat : List (List Nat)) (minD maxD scale : ℚ)
    (v : Nat → Nat) (l : List Nat) :
    ∀ acc : List Nat, (∀ i ∈ l, sampleAt mat i = some (v i)) →
      l.foldlM (extractStep mat minD maxD scale) acc
        = some (l.foldl (fun acc i => acc.set i (sectorValue (v i) scale minD maxD)) acc) := by
  induction l with
  | nil => intro acc _; rfl
  | cons j l ih =>
    intro acc h
    have hj : sampleAt mat j = some (v j) := h j (List.mem_cons_self j l)
    rw [List.foldlM_cons]
    have hstep : extractStep mat minD maxD scale acc j
        = some (acc.set j (sectorValue (v j) scale minD maxD)) := by
      unfold extractStep; rw [hj]; rfl
    rw [hstep]
    show l.foldlM (extractStep mat minD maxD scale) (acc.set j (sectorValue (v j) scale minD maxD)) = _
    rw [List.foldl_cons]
    exact ih _ (fun i hi => h i (List.mem_cons_of_mem j hi))

/-- If the monadic fold of `extractStep` succeeds, every visited loop
iteration's pixel sample succeeded. -/
theorem sampleAt_isSome_of_foldlM (mat : List (List Nat)) (minD maxD scale : ℚ)
    (l : List Nat) :
    ∀ acc out : List Nat, l.foldlM (extractStep mat minD maxD scale) acc = some out →
      ∀ i ∈ l, (sampleAt mat i).isSome := by
  induction l with
  | nil => intro acc out _ i hi; exact absurd hi (List.not_mem_nil i)
  | cons j l ih =>
    intro acc out h i hi
    rw [List.foldlM_cons] at h
    cases hs : sampleAt mat j with
    | none =>
      unfold extractStep at h
      rw [hs] at h
      exact absurd h (by simp)
    | some a =>
      rcases List.mem_cons.1 hi with rfl | hi'
      · rw [hs]; rfl
      · unfold extractStep at h
        rw [hs] at h
        exact ih _ out h i hi'

/-- Writing all sectors with `List.set` preserves the array length. -/
theorem foldl_set_length (w : Nat → Nat) (n : Nat) (acc : List Nat) :
    ((List.range n).foldl (fun a i => a.set i (w i)) acc).length = acc.length := by
  induction n with
  | zero => rfl
  | succ n ih =>
    rw [List.range_succ, List.foldl_append]
    simp only [List.foldl_cons, List.foldl_nil, List.length_set]
    exact ih

/-- After writing sectors `0, …, n-1`, sector `j < n` holds its written
value. -/
theorem foldl_set_getElem? (w : Nat → Nat) (n : Nat) (acc : List Nat) (j : Nat)
    (hj : j < n) (hlen : j < acc.length) :
    ((List.range n).foldl (fun a i => a.set i (w i)) acc)[j]? = some (w j) := by
  induction n with
  | zero => omega
  | succ n ih =>
    rw [List.range_succ, List.foldl_append]
    simp only [List.foldl_cons, List.foldl_nil]
    by_cases hjn : j = n
    · subst hjn
      exact List.getElem?_set_eq_of_lt _ (by rw [foldl_set_length]; exact hlen)
    · rw [List.getElem?_set_ne (fun h => hjn h.symm)]
      exact ih (by omega)

/-- Successful extraction, characterized: when all pixel samples succeed,
the result is the pure fold of per-sector writes over the prior array. -/
theorem extract_eq_some_of_samples (mat : List (List Nat)) (d : List Nat)
    (minD maxD scale : ℚ) (v : Nat → Nat)
    (hv : ∀ i ∈ List.range DISTANCES_ARRAY_LEN, sampleAt mat i = some (v i)) :
    distances_from_depth_image mat d minD maxD scale
      = some ((List.range DISTANCES_ARRAY_LEN).foldl
          (fun acc i => acc.set i (sectorValue (v i) scale minD maxD)) d) :=
  foldlM_extractStep_eq_some mat minD maxD scale v _ d hv

/-- Successful extraction implies every loop iteration sampled its pixel
successfully. -/
theorem sampleAt_isSome_of_extract (mat : List (List Nat)) (d : List Nat)
    (minD maxD scale : ℚ) (out : List Nat)
    (hout : distances_from_depth_image mat d minD maxD scale = some out) :
    ∀ i ∈ List.range DISTANCES_ARRAY_LEN, (sampleAt mat i).isSome :=
  sampleAt_isSome_of_foldlM mat minD maxD scale _ d out hout

/-- Successful extraction determines sector `i` from the single pixel the
loop samples for it: the result at index `i` is `sectorValue` of that
pixel. -/
theorem extract_getElem?_of_sample (mat : List (List Nat)) (d : List Nat)
    (minD maxD scale : ℚ) (out : List Nat) (j vj : Nat)
    (hd : d.length = DISTANCES_ARRAY_LEN)
    (hout : distances_from_depth_image mat d minD maxD scale = some out)
    (hj : j < DISTANCES_ARRAY_LEN)
    (hv : sampleAt mat j = some vj) :
    out[j]? = some (sectorValue vj scale minD maxD) := by
  have hall := sampleAt_isSome_of_extract mat d minD maxD scale out hout
  have hv' : ∀ i ∈ List.range DISTANCES_ARRAY_LEN,
      sampleAt mat i = some ((sampleAt mat i).getD 0) := by
    intro i hi
    obtain ⟨a, ha⟩ := Option.isSome_iff_exists.1 (hall i hi)
    rw [ha]; rfl
  rw [extract_eq_some_of_samples mat d minD maxD scale _ hv'] at hout
  have hout' := Option.some.inj hout
  subst hout'
  have := foldl_set_getElem?
    (fun i => sectorValue ((sampleAt mat i).getD 0) scale minD maxD)
    DISTANCES_ARRAY_LEN d j hj (by omega)
  rw [this]
  simp only [hv, Option.getD_some]

/-- Successful extraction preserves the length of the distance array. -/
theorem extract_length_of_some (mat : List (List Nat)) (d : List Nat)
    (minD maxD scale : ℚ) (out : List Nat)
    (hout : distances_from_depth_image mat d minD maxD scale = some out) :
    out.length = d.length := by
  have hall := sampleAt_isSome_of_extract mat d minD maxD scale out hout
  have hv' : ∀ i ∈ List.range DISTANCES_ARRAY_LEN,
      sampleAt mat i = some ((sampleAt mat i).getD 0) := by
    intro i hi
    obtain ⟨a, ha⟩ := Option.isSome_iff_exists.1 (hall i hi)
    rw [ha]; rfl
  rw [extract_eq_some_of_samples mat d minD maxD scale _ hv'] at hout
  have hout' := Option.some.inj hout
  subst hout'
  exact foldl_set_length _ _ d

/-- The sampled row `int(height/2)` is in bounds for any nonempty frame. -/
theorem rowIndex_lt (h : Nat) (hh : 0 < h) : rowIndex h < h := by
  unfold rowIndex
  have h1 : ((h : ℚ) / 2) < ((h : ℤ) : ℚ) := by
    push_cast
    have : (1 : ℚ) ≤ (h : ℚ) := by exact_mod_cast hh
    linarith
  have h2 : ⌊(h : ℚ) / 2⌋ < (h : ℤ) := Int.floor_lt.2 h1
  omega

/-- The sampled column `int(i * step)` is in bounds whenever the frame has
at least one column and `i` is below the sector count. -/
theorem colIndex_lt (w i : Nat) (hw : 0 < w) (hi : i < DISTANCES_ARRAY_LEN) :
    colIndex w i < w := by
  unfold colIndex
  have h72 : ((DISTANCES_ARRAY_LEN : Nat) : ℚ) = 72 := by norm_num [DISTANCES_ARRAY_LEN]
  have hi' : (i : ℚ) ≤ 71 := by
    have : i ≤ 71 := by
      have := hi; unfold DISTANCES_ARRAY_LEN at this; omega
    exact_mod_cast this
  have hw' : (1 : ℚ) ≤ (w : ℚ) := by exact_mod_cast hw
  have h1 : (i : ℚ) * ((w : ℚ) / (DISTANCES_ARRAY_LEN : ℚ)) < ((w : ℤ) : ℚ) := by
    rw [h72]
    push_cast
    rw [mul_div_assoc'] at *
    rw [div_lt_iff₀ (by norm_num : (0 : ℚ) < 72)]
    nlinarith
  have h2 : ⌊(i : ℚ) * ((w : ℚ) / (DISTANCES_ARRAY_LEN : ℚ))⌋ < (w : ℤ) := Int.floor_lt.2 h1
  omega

/-- For a rectangular frame with nonzero dimensions every loop iteration's
pixel sample succeeds. -/
theorem sampleAt_of_dims (mat : List (List Nat)) (hwf : Wellformed mat)
    (hH : 0 < matHeight mat) (hW : 0 < matWidth mat) (i : Nat)
    (hi : i < DISTANCES_ARRAY_LEN) : ∃ v, sampleAt mat i = some v := by
  have hrow : rowIndex (matHeight mat) < mat.length := rowIndex_lt _ hH
  have hcol : colIndex (matWidth mat) i < matWidth mat := colIndex_lt _ i hW hi
  obtain ⟨row, hrowget⟩ : ∃ row, mat[rowIndex (matHeight mat)]? = some row := by
    rw [List.getElem?_eq_getElem hrow]
    exact ⟨_, rfl⟩
  have hmem : row ∈ mat := List.getElem?_mem hrowget
  have hcol' : colIndex (matWidth mat) i < row.length := by
    rw [hwf row hmem]; exact hcol
  obtain ⟨v, hv⟩ : ∃ v, row[colIndex (matWidth mat) i]? = some v := by
    rw [List.getElem?_eq_getElem hcol']
    exact ⟨_, rfl⟩
  refine ⟨v, ?_⟩
  unfold sampleAt matGet
  rw [hrowget]
  exact hv

/-- For a rectangular frame with nonzero dimensions the extraction
succeeds (regardless of the prior contents of the distance array). -/
theorem extract_isSome_of_dims (mat : List (List Nat)) (d : List Nat)
    (minD maxD scale : ℚ) (hwf : Wellformed mat)
    (hH : 0 < matHeight mat) (hW : 0 < matWidth mat) :
    (distances_from_depth_image mat d minD maxD scale).isSome := by
  have hv' : ∀ i ∈ List.range DISTANCES_ARRAY_LEN,
      sampleAt mat i = some ((sampleAt mat i).getD 0) := by
    intro i hi
    obtain ⟨v, hv⟩ := sampleAt_of_dims mat hwf hH hW i (List.mem_range.1 hi)
    rw [hv]; rfl
  rw [extract_eq_some_of_samples mat d minD maxD scale _ hv']
  rfl

/-- A successful extraction forces both frame dimensions to be nonzero:
iteration 0 reads row `int(height/2)`, column 0. -/
theorem dims_pos_of_extract_isSome (mat : List (List Nat)) (d : List Nat)
    (minD maxD scale : ℚ) (hwf : Wellformed mat)
    (h : (distances_from_depth_image mat d minD maxD scale).isSome) :
    0 < matHeight mat ∧ 0 < matWidth mat := by
  obtain ⟨out, hout⟩ := Option.isSome_iff_exists.1 h
  have h0 : (sampleAt mat 0).isSome :=
    sampleAt_isSome_of_extract mat d minD maxD scale out hout 0
      (List.mem_range.2 (by decide))
  obtain ⟨v, hv⟩ := Option.isSome_iff_exists.1 h0
  unfold sampleAt matGet at hv
  obtain ⟨row, hrow, hcell⟩ := Option.bind_eq_some.1 hv
  have hH : 0 < matHeight mat := by
    have := (List.getElem?_eq_some.1 hrow).1
    unfold matHeight
    omega
  refine ⟨hH, ?_⟩
  have hcol0 : colIndex (matWidth mat) 0 = 0 := by
    unfold colIndex
    simp
  rw [hcol0] at hcell
  have hrl : 0 < row.length := by
    have := (List.getElem?_eq_some.1 hcell).1
    omega
  have hmem : row ∈ mat := List.getElem?_mem hrow
  rw [hwf row hmem] at hrl
  exact hrl

/-- Range of a stored sector value at the script's configured depth range:
both branches of the line 366-369 conditional land in
`[MIN_DEPTH_CM, MAX_DEPTH_CM + 1]`, for any raw sample and any scale. -/
theorem sectorValue_bounds (raw : Nat) (scale : ℚ) :
    MIN_DEPTH_CM ≤ sectorValue raw scale DEPTH_RANGE_MIN DEPTH_RANGE_MAX ∧
    sectorValue raw scale DEPTH_RANGE_MIN DEPTH_RANGE_MAX ≤ MAX_DEPTH_CM + 1 := by
  have hmin : MIN_DEPTH_CM = 10 := by decide
  have hmax : MAX_DEPTH_CM = 800 := by decide
  unfold sectorValue DEPTH_RANGE_MIN DEPTH_RANGE_MAX
  by_cases hcond : (raw : ℚ) * scale < 1 / 10 ∨ (raw : ℚ) * scale > 8
  · rw [if_pos hcond]
    rw [hmin, hmax]
    constructor <;> decide
  · rw [if_neg hcond]
    push_neg at hcond
    obtain ⟨h1, h2⟩ := hcond
    have hlow : (10 : ℤ) ≤ ⌊(raw : ℚ) * scale * 100⌋ := by
      rw [Int.le_floor]
      push_cast
      linarith
    have hhigh : ⌊(raw : ℚ) * scale * 100⌋ ≤ (800 : ℤ) := by
      have : ⌊(raw : ℚ) * scale * 100⌋ ≤ ⌊(800 : ℚ)⌋ := Int.floor_le_floor (by linarith)
      simpa using this
    rw [hmin, hmax]
    omega

/-- C1: if the sampled raw value `v` for sector `i` satisfies
`v*depth_scale < min_range_m` or `v*depth_scale > max_range_m`, the
extraction writes exactly the sentinel `max_range_cm + 1` into sector `i`
(with `max_range_cm = int(max_range_m * 100)`), never the computed
out-of-range distance. -/
theorem extract_out_of_range_writes_sentinel (mat : List (List Nat)) (d : List Nat)
    (minD maxD scale : ℚ) (out : List Nat) (i v : Nat)
    (hmax : 0 ≤ maxD)
    (hd : d.length = DISTANCES_ARRAY_LEN)
    (hout : distances_from_depth_image mat d minD maxD scale = some out)
    (hi : i < DISTANCES_ARRAY_LEN)
    (hv : sampleAt mat i = some v)
    (hrange : (v : ℚ) * scale < minD ∨ (v : ℚ) * scale > maxD) :
    out[i]? = some ((⌊maxD * 100⌋).toNat + 1) := by
  rw [extract_getElem?_of_sample mat d minD maxD scale out i v hd hout hi hv]
  unfold sectorValue
  rw [if_pos hrange]
  have hfl : ⌊maxD * 100 + 1⌋ = ⌊maxD * 100⌋ + 1 := Int.floor_add_one _
  have hnn : 0 ≤ ⌊maxD * 100⌋ := Int.floor_nonneg.2 (by positivity)
  rw [hfl]
  congr 1
  omega

/-- C1 witness: the scenario of §8 end-to-end scenario 2 — a frame whose
sampled pixels are all raw value 9000 with scale 0.001 (9.0 m, above the
8.0 m maximum) yields every sector equal to 801, and sector 0 equals the
sentinel `int(8*100) + 1`. -/
theorem extract_out_of_range_writes_sentinel_witness :
    ((0 : ℚ) ≤ 8 ∧
      (List.replicate 72 (0 : Nat)).length = DISTANCES_ARRAY_LEN ∧
      distances_from_depth_image [[9000]] (List.replicate 72 0) (1 / 10) 8 (1 / 1000)
        = some (List.replicate 72 801) ∧
      0 < DISTANCES_ARRAY_LEN ∧
      sampleAt [[9000]] 0 = some 9000 ∧
      (9000 : ℚ) * (1 / 1000) > 8) ∧
    (List.replicate 72 (801 : Nat))[0]? = some ((⌊(8 : ℚ) * 100⌋).toNat + 1) :=
  ⟨⟨by norm_num, by decide, by decide, by decide, by decide, by decide⟩,
    extract_out_of_range_writes_sentinel [[9000]] (List.replicate 72 0) (1 / 10) 8 (1 / 1000)
      (List.replicate 72 801) 0 9000 (by norm_num) (by decide) (by decide) (by decide)
      (by decide) (Or.inr (by decide))⟩

/-- C2 counterexample: the claim says an in-range sector receives
`round(dist_m * 100)`, but the code stores `dist_m * 100` into a `uint16`
cell, which truncates.  On a frame whose sampled pixel has raw value 1239
with scale 0.001 (`dist_m * 100 = 123.9`), the code writes 123 while
`round(123.9) = 124`. -/
theorem extract_truncates_not_rounds_cex :
    (distances_from_depth_image [[1239]] (List.replicate 72 0) (1 / 10) 8 (1 / 1000)).map
        (fun l => l[0]?) = some (some 123) ∧
    round ((1239 : ℚ) * (1 / 1000) * 100) ≠ (123 : ℤ) := by
  constructor
  · decide
  · rw [round_eq]
    decide

/-- C2 as amended: for every sector whose sampled distance
`dist_m = raw * depth_scale` lies within `[min_range_m, max_range_m]`,
the extraction writes the truncation `⌊dist_m * 100⌋` (the effect of the
float-to-uint16 store), not the rounding, into that sector. -/
theorem extract_in_range_truncates (mat : List (List Nat)) (d : List Nat)
    (minD maxD scale : ℚ) (out : List Nat) (i v : Nat)
    (hd : d.length = DISTANCES_ARRAY_LEN)
    (hout : distances_from_depth_image mat d minD maxD scale = some out)
    (hi : i < DISTANCES_ARRAY_LEN)
    (hv : sampleAt mat i = some v)
    (h1 : minD ≤ (v : ℚ) * scale)
    (h2 : (v : ℚ) * scale ≤ maxD) :
    out[i]? = some ((⌊(v : ℚ) * scale * 100⌋).toNat) := by
  rw [extract_getElem?_of_sample mat d minD maxD scale out i v hd hout hi hv]
  unfold sectorValue
  rw [if_neg]
  push_neg
  exact ⟨h1, h2⟩

/-- C2 witness: §8 end-to-end scenario 1 — a frame whose center row is
constant raw value 2000 with scale 0.001 (2.0 m, in range) yields every
sector equal to 200 cm; sector 0 equals `⌊2.0 * 100⌋ = 200`. -/
theorem extract_in_range_truncates_witness :
    ((List.replicate 72 (0 : Nat)).length = DISTANCES_ARRAY_LEN ∧
      distances_from_depth_image [List.replicate 72 2000] (List.replicate 72 0)
        (1 / 10) 8 (1 / 1000) = some (List.replicate 72 200) ∧
      0 < DISTANCES_ARRAY_LEN ∧
      sampleAt [List.replicate 72 2000] 0 = some 2000 ∧
      (1 / 10 : ℚ) ≤ (2000 : ℚ) * (1 / 1000) ∧
      (2000 : ℚ) * (1 / 1000) ≤ 8) ∧
    (List.replicate 72 (200 : Nat))[0]? = some ((⌊(2000 : ℚ) * (1 / 1000) * 100⌋).toNat) :=
  ⟨⟨by decide, by decide, by decide, by decide, by decide, by decide⟩,
    extract_in_range_truncates [List.replicate 72 2000] (List.replicate 72 0) (1 / 10) 8
      (1 / 1000) (List.replicate 72 200) 0 2000 (by decide) (by decide) (by decide)
      (by decide) (by decide) (by decide)⟩

/-- C3: for every rectangular frame with nonzero dimensions and width at
least the sector count, extraction over the script's configured depth
range produces an array of exactly `DISTANCES_ARRAY_LEN = 72` elements,
each in `[MIN_DEPTH_CM, MAX_DEPTH_CM + 1]`. -/
theorem extract_length_and_bounds (mat : List (List Nat)) (d : List Nat) (scale : ℚ)
    (hwf : Wellformed mat) (hH : 0 < matHeight mat)
    (hW : DISTANCES_ARRAY_LEN ≤ matWidth mat)
    (hd : d.length = DISTANCES_ARRAY_LEN) :
    ∃ out, distances_from_depth_image mat d DEPTH_RANGE_MIN DEPTH_RANGE_MAX scale = some out ∧
      out.length = DISTANCES_ARRAY_LEN ∧
      ∀ x ∈ out, MIN_DEPTH_CM ≤ x ∧ x ≤ MAX_DEPTH_CM + 1 := by
  have hW' : 0 < matWidth mat := by
    have : 0 < DISTANCES_ARRAY_LEN := by decide
    omega
  obtain ⟨out, hout⟩ := Option.isSome_iff_exists.1
    (extract_isSome_of_dims mat d DEPTH_RANGE_MIN DEPTH_RANGE_MAX scale hwf hH hW')
  refine ⟨out, hout, ?_, ?_⟩
  · rw [extract_length_of_some mat d DEPTH_RANGE_MIN DEPTH_RANGE_MAX scale out hout, hd]
  · intro x hx
    obtain ⟨j, hjlen, hjx⟩ := List.mem_iff_getElem.1 hx
    have hj72 : j < DISTANCES_ARRAY_LEN := by
      rw [extract_length_of_some mat d DEPTH_RANGE_MIN DEPTH_RANGE_MAX scale out hout, hd]
        at hjlen
      exact hjlen
    obtain ⟨v, hv⟩ := sampleAt_of_dims mat hwf hH hW' j hj72
    have := extract_getElem?_of_sample mat d DEPTH_RANGE_MIN DEPTH_RANGE_MAX scale out j v
      hd hout hj72 hv
    rw [List.getElem?_eq_getElem hjlen, hjx] at this
    have hxval := Option.some.inj this
    rw [hxval]
    exact sectorValue_bounds v scale

/-- C3 witness: a 1-row, 72-column frame of constant raw value 2000 with
scale 0.001 satisfies the hypotheses; the produced array has 72 elements,
all within `[MIN_DEPTH_CM, MAX_DEPTH_CM + 1]`. -/
theorem extract_length_and_bounds_witness :
    (Wellformed [List.replicate 72 2000] ∧
      0 < matHeight [List.replicate 72 2000] ∧
      DISTANCES_ARRAY_LEN ≤ matWidth [List.replicate 72 2000] ∧
      (List.replicate 72 (0 : Nat)).length = DISTANCES_ARRAY_LEN) ∧
    ∃ out, distances_from_depth_image [List.replicate 72 2000] (List.replicate 72 0)
        DEPTH_RANGE_MIN DEPTH_RANGE_MAX (1 / 1000) = some out ∧
      out.length = DISTANCES_ARRAY_LEN ∧
      ∀ x ∈ out, MIN_DEPTH_CM ≤ x ∧ x ≤ MAX_DEPTH_CM + 1 :=
  ⟨⟨by decide, by decide, by decide, by decide⟩,
    extract_length_and_bounds [List.replicate 72 2000] (List.replicate 72 0) (1 / 1000)
      (by decide) (by decide) (by decide) (by decide)⟩

/-- C4: for a frame of width `W` and height `H` and sector `i`, the
extraction result at sector `i` is `sectorValue` of the single pixel at
row `⌊H/2⌋` and column `⌊i * (W/N)⌋`, where `step = W/N` is a real-valued
quotient — the exact row/column selection rule of source lines 361-365. -/
theorem extract_samples_single_center_pixel (mat : List (List Nat)) (d : List Nat)
    (minD maxD scale : ℚ) (out : List Nat) (i v : Nat)
    (hd : d.length = DISTANCES_ARRAY_LEN)
    (hout : distances_from_depth_image mat d minD maxD scale = some out)
    (hi : i < DISTANCES_ARRAY_LEN)
    (hv : matGet mat ((⌊(matHeight mat : ℚ) / 2⌋).toNat)
        ((⌊(i : ℚ) * ((matWidth mat : ℚ) / (DISTANCES_ARRAY_LEN : ℚ))⌋).toNat) = some v) :
    out[i]? = some (sectorValue v scale minD maxD) :=
  extract_getElem?_of_sample mat d minD maxD scale out i v hd hout hi hv

/-- C4 witness: on a 1×1 frame of raw value 1239, sector 0 samples the
pixel at row `⌊1/2⌋ = 0`, column `⌊0 * (1/72)⌋ = 0`, and the result at
sector 0 is `sectorValue` of that pixel. -/
theorem extract_samples_single_center_pixel_witness :
    ((List.replicate 72 (0 : Nat)).length = DISTANCES_ARRAY_LEN ∧
      distances_from_depth_image [[1239]] (List.replicate 72 0) (1 / 10) 8 (1 / 1000)
        = some (List.replicate 72 123) ∧
      0 < DISTANCES_ARRAY_LEN ∧
      matGet [[1239]] ((⌊(matHeight [[1239]] : ℚ) / 2⌋).toNat)
        ((⌊(0 : ℚ) * ((matWidth [[1239]] : ℚ) / (DISTANCES_ARRAY_LEN : ℚ))⌋).toNat)
        = some 1239) ∧
    (List.replicate 72 (123 : Nat))[0]? = some (sectorValue 1239 (1 / 1000) (1 / 10) 8) :=
  ⟨⟨by decide, by decide, by decide, by decide⟩, by
    have h := extract_samples_single_center_pixel [[1239]] (List.replicate 72 0) (1 / 10) 8
      (1 / 1000) (List.replicate 72 123) 0 1239 (by decide) (by decide) (by decide)
      (by decide)
    exact_mod_cast h⟩

/-- C5 counterexample: the claim says extraction fails with
`InvalidFrameError` whenever the frame width is smaller than the sector
count, writing no distance values; but the code has no dimension check —
a 1×36 frame (width 36 < 72) is processed normally and every sector is
written (columns `⌊i·36/72⌋ < 36` stay in bounds). -/
theorem extract_narrow_frame_succeeds_cex :
    distances_from_depth_image [List.replicate 36 2000] (List.replicate 72 801)
      (1 / 10) 8 (1 / 1000) = some (List.replicate 72 200) := by
  decide

/-- C5 as amended: the extraction performs no dimension validation and
raises no `InvalidFrameError`; for a rectangular frame it fails (an
out-of-bounds pixel read) exactly when a frame dimension is zero, and a
frame narrower than the sector count is processed normally. -/
theorem extract_fails_iff_zero_dimension (mat : List (List Nat)) (d : List Nat)
    (minD maxD scale : ℚ) (hwf : Wellformed mat) :
    (distances_from_depth_image mat d minD maxD scale).isSome ↔
      (0 < matHeight mat ∧ 0 < matWidth mat) := by
  constructor
  · exact dims_pos_of_extract_isSome mat d minD maxD scale hwf
  · intro ⟨hH, hW⟩
    exact extract_isSome_of_dims mat d minD maxD scale hwf hH hW

/-- C5 witness: a 1×1 frame is rectangular, and extraction on it succeeds
iff both dimensions are positive (they are). -/
theorem extract_fails_iff_zero_dimension_witness :
    Wellformed [[5]] ∧
    ((distances_from_depth_image [[5]] (List.replicate 72 0) (1 / 10) 8 1).isSome ↔
      (0 < matHeight [[5]] ∧ 0 < matWidth [[5]])) :=
  ⟨by decide,
    extract_fails_iff_zero_dimension [[5]] (List.replicate 72 0) (1 / 10) 8 1 (by decide)⟩

/-- C9: extraction is a pure function of the frame, the range bounds and
the scale — in particular it does not depend on the prior contents of the
output array it overwrites: running it over any two prior arrays of the
proper length produces identical results (every element is overwritten). -/
theorem extract_independent_of_prior_output (mat : List (List Nat)) (minD maxD scale : ℚ)
    (d₁ d₂ : List Nat)
    (h₁ : d₁.length = DISTANCES_ARRAY_LEN) (h₂ : d₂.length = DISTANCES_ARRAY_LEN) :
    distances_from_depth_image mat d₁ minD maxD scale
      = distances_from_depth_image mat d₂ minD maxD scale := by
  by_cases hall : ∀ i ∈ List.range DISTANCES_ARRAY_LEN, (sampleAt mat i).isSome
  · have hv' : ∀ i ∈ List.range DISTANCES_ARRAY_LEN,
        sampleAt mat i = some ((sampleAt mat i).getD 0) := by
      intro i hi
      obtain ⟨a, ha⟩ := Option.isSome_iff_exists.1 (hall i hi)
      rw [ha]; rfl
    have hlists :
        (List.range DISTANCES_ARRAY_LEN).foldl
            (fun acc i => acc.set i
              (sectorValue ((sampleAt mat i).getD 0) scale minD maxD)) d₁
          = (List.range DISTANCES_ARRAY_LEN).foldl
            (fun acc i => acc.set i
              (sectorValue ((sampleAt mat i).getD 0) scale minD maxD)) d₂ := by
      apply List.ext_getElem?
      intro j
      by_cases hj : j < DISTANCES_ARRAY_LEN
      · rw [foldl_set_getElem? _ DISTANCES_ARRAY_LEN d₁ j hj (by omega),
          foldl_set_getElem? _ DISTANCES_ARRAY_LEN d₂ j hj (by omega)]
      · rw [List.getElem?_eq_none (by rw [foldl_set_length, h₁]; omega),
          List.getElem?_eq_none (by rw [foldl_set_length, h₂]; omega)]
    rw [extract_eq_some_of_samples mat d₁ minD maxD scale _ hv',
      extract_eq_some_of_samples mat d₂ minD maxD scale _ hv', hlists]
  · have hnone : ∀ d : List Nat, distances_from_depth_image mat d minD maxD scale = none := by
      intro d
      cases hres : distances_from_depth_image mat d minD maxD scale with
      | none => rfl
      | some out =>
        exact absurd (sampleAt_isSome_of_extract mat d minD maxD scale out hres) hall
    rw [hnone d₁, hnone d₂]

/-- C9 witness: on a 1×1 frame of raw value 2000, extraction over the
all-zero prior array and over the all-999 prior array coincide. -/
theorem extract_independent_of_prior_output_witness :
    ((List.replicate 72 (0 : Nat)).length = DISTANCES_ARRAY_LEN ∧
      (List.replicate 72 (999 : Nat)).length = DISTANCES_ARRAY_LEN) ∧
    distances_from_depth_image [[2000]] (List.replicate 72 0) (1 / 10) 8 (1 / 1000)
      = distances_from_depth_image [[2000]] (List.replicate 72 999) (1 / 10) 8 (1 / 1000) :=
  ⟨⟨by decide, by decide⟩,
    extract_independent_of_prior_output [[2000]] (1 / 10) 8 (1 / 1000)
      (List.replicate 72 0) (List.replicate 72 999) (by decide) (by decide)⟩

/-- C6 counterexample: the claim says a scheduler tick before any frame
has been processed emits zero telemetry messages; but
`send_obstacle_distance_message` performs no readiness check — a tick in
the initial state emits one message, and the shared array at that point
is not a "not ready" state but the concrete line-62 initial array, every
sector holding the sentinel 801. -/
theorem initial_tick_emits_message_cex :
    (send_obstacle_distance_message initTelemetryState).sent.length = 1 ∧
    initTelemetryState.distances = List.replicate 72 801 := by
  constructor
  · rfl
  · decide

/-- C6 as amended: before any frame has been processed the shared
distance array holds the all-sentinel initial value
`replicate 72 (MAX_DEPTH_CM + 1)` rather than a caller-visible
"not ready" state, and a scheduler tick in this state emits exactly one
obstacle-distance message carrying that all-sentinel array. -/
theorem initial_tick_sends_sentinel_array :
    (send_obstacle_distance_message initTelemetryState).sent.map
        (fun msg => msg.dists)
      = [List.replicate DISTANCES_ARRAY_LEN (MAX_DEPTH_CM + 1)] := by
  rfl

/-- C7 counterexample: with neither publication job enabled, the claim
says the scheduler never starts and the process exits with a failure
code; but `sched.start()` at line 392 runs before the enable-flag branch,
and the no-job branch exits via `sys.exit()` with no argument, i.e. exit
status 0 (success). -/
theorem sched_no_jobs_starts_and_exits_zero_cex :
    (sched_setup false false).schedStarted = true ∧
    (sched_setup false false).exitCode = some 0 := by
  constructor <;> rfl

/-- C7 as amended: with neither job enabled the scheduler is started
anyway (with no job added), the process sends the explanatory status
text, and exits with the success exit code 0. -/
theorem sched_no_jobs_behavior :
    sched_setup false false
      = { schedStarted := true
          jobs := []
          gcs := ["Nothing to do. Check params to enable something"]
          exitCode := some 0 } := by
  rfl

/-- C8 counterexample: the claimed invariant
`angle_offset + N * increment == field_of_view` fails on the constants of
lines 60-61: `-(87/2) + 72 * (87/72) = 43.5 ≠ 87`. -/
theorem sector_geometry_sum_ne_fov_cex :
    ¬(ANGLE_OFFSET = -(HFOV / 2) ∧
      ANGLE_OFFSET + (DISTANCES_ARRAY_LEN : ℚ) * INCREMENT_F = HFOV) := by
  intro ⟨_, h⟩
  revert h
  decide

/-- C8 as amended: the derived sector-geometry constants satisfy
`angle_offset = -field_of_view/2` and
`angle_offset + N * increment = field_of_view/2` — the sectors span from
`-field_of_view/2` to `+field_of_view/2`, i.e. a total arc of exactly the
configured field of view. -/
theorem sector_geometry_amended :
    ANGLE_OFFSET = -(HFOV / 2) ∧
    ANGLE_OFFSET + (DISTANCES_ARRAY_LEN : ℚ) * INCREMENT_F = HFOV / 2 := by
  constructor
  · rfl
  · decide

/-- C10: the lock declared at line 106 with the comment "lock for thread
synchronization" is never acquired anywhere in the script, and
`distances_from_depth_image` overwrites the shared `distances` array
element by element, while `send_obstacle_distance_message` reads it from
the scheduler thread with no mutual exclusion.  Consequently a reader can
observe the array between element writes of a publish.  Concretely:
a first processed frame (all raw 1000, scale 0.001) leaves the shared
array all-100; a second frame (all raw 2000) fully processed would leave
it all-200; but after the first element write of the second publish the
shared array holds 200 in sector 0 and still 100 in sector 1 — a torn
state mixing two publishes, which an unsynchronized concurrent read
returns. -/
theorem torn_read_reachable :
    distances_from_depth_image [List.replicate 72 1000] distances_init
        (1 / 10) 8 (1 / 1000) = some (List.replicate 72 100) ∧
    distances_from_depth_image [List.replicate 72 2000] (List.replicate 72 100)
        (1 / 10) 8 (1 / 1000) = some (List.replicate 72 200) ∧
    distances_from_depth_image_steps [List.replicate 72 2000] (List.replicate 72 100)
        (1 / 10) 8 (1 / 1000) 1 = some ((List.replicate 72 100).set 0 200) ∧
    ((List.replicate 72 (100 : Nat)).set 0 200)[0]? = some 200 ∧
    ((List.replicate 72 (100 : Nat)).set 0 200)[1]? = some 100 := by
  refine ⟨by decide, by decide, by decide, by decide, by decide⟩
